import Mathlib

/-!
Verification of the notification-dispatch subsystem of the scribe backend
(`src/utils/notifications.py` and the worker-status logic of
`src/routers/healthcheck.py`), as a shallow embedding in Lean 4.

Python strings used as configuration values are modelled as `String`, with
Python truthiness (`if settings.API_SMTP_HOST:`) modelled as `≠ ""`.
The in-process pending buffer (`collections.deque`, appended at the right,
popped at the left) is modelled as a `List` with the head at the left.
Exceptions caught by `try/except` are modelled by explicit outcome values.
-/

namespace Scribe

/-- The SMTP-related fields of the settings object read by
`utils/notifications.py`. A field equal to `""` models an unset/falsy
Python value. -/
structure Settings where
  API_SMTP_HOST : String
  API_SMTP_PORT : Nat
  API_SMTP_USERNAME : String
  API_SMTP_PASSWORD : String
  API_SMTP_SENDER : String
deriving Repr, DecidableEq

/-- One queued email notification, as built by `Notifications.add`
(`notifications.py` lines 66-72). -/
structure NotificationJob where
  to_emails : List String
  subject : String
  message : String
deriving Repr, DecidableEq

/-- Log output produced by the notification code: the warning of `add`
(line 61), the per-send info line (line 98) and the error line of the
`except` clause (line 100), which carries the job's recipient list. -/
inductive LogEntry where
  | warning (msg : String)
  | info (recipients : List String)
  | error (recipients : List String) (err : String)
deriving Repr, DecidableEq

/-- The truthiness test of `Notifications.add` line 60:
`if not settings.API_SMTP_HOST`. -/
def hostConfigured (s : Settings) : Bool :=
  s.API_SMTP_HOST ≠ ""

/-- The guard of the drain handler, lines 34-38:
`settings.API_SMTP_HOST and settings.API_SMTP_USERNAME and
settings.API_SMTP_PASSWORD`. -/
def smtpFullyConfigured (s : Settings) : Bool :=
  s.API_SMTP_HOST ≠ "" && s.API_SMTP_USERNAME ≠ "" && s.API_SMTP_PASSWORD ≠ ""

/-- `Notifications.add` (lines 47-72): if the SMTP host is not configured,
log a warning and leave the queue unchanged; otherwise append one job at the
tail. Returns the new queue together with the log lines emitted. The Python
method returns `None` and raises nothing; correspondingly this is a total
function. -/
def add (s : Settings) (q : List NotificationJob)
    (to_emails : List String) (subject message : String) :
    List NotificationJob × List LogEntry :=
  if hostConfigured s then
    (q ++ [{ to_emails := to_emails, subject := subject, message := message }], [])
  else
    (q, [LogEntry.warning
      "SMTP host is not configured. Email notifications will not be sent."])

/-- The external SMTP transport, as exercised by
`__notification_send_email`: whether `SMTP(...)`/`starttls` succeed, whether
`login` succeeds, and whether the i-th `sendmail` call of a delivery attempt
succeeds. -/
structure Transport where
  connectOk : Bool
  loginOk : Bool
  sendOk : Nat → Bool

/-- The error raised inside the `try` block of `__notification_send_email`,
by connection setup, `login`, or a `sendmail` call. -/
inductive SmtpError where
  | connectFailed
  | authFailed
  | sendFailed
deriving Repr, DecidableEq

/-- One `server.sendmail(from_addr, to_addrs, msg)` call (line 97). -/
structure SendCall where
  from_addr : String
  to_addrs : List String
  msg : String
deriving Repr, DecidableEq

/-- The message string built at line 96 for the loop iteration whose
variable `email` is the given recipient. -/
def mailToSend (s : Settings) (email subject message : String) : String :=
  "From: Sunet Scribe <" ++ s.API_SMTP_SENDER ++ ">\nTo: " ++ email ++
    "\nSubject: " ++ subject ++ "\n\n" ++ message

/-- Outcome of running (a suffix of) the `try` block: the `sendmail` calls
made, the log lines emitted, and the exception in flight if one was raised. -/
structure TryOutcome where
  calls : List SendCall
  logs : List LogEntry
  raised : Option SmtpError
deriving Repr

/-- The `for email in to_emails` loop of lines 95-98, starting at `sendmail`
call index `i`. Each iteration calls `sendmail` with the FULL recipient list
`all` as `to_addrs` (line 97) and, on success, logs an info line naming the
full list (line 98); a raising `sendmail` call aborts the loop with the
exception in flight (the failed call itself was still made). -/
def sendLoop (s : Settings) (t : Transport) (all : List String)
    (subject message : String) : List String → Nat → TryOutcome
  | [], _ => { calls := [], logs := [], raised := none }
  | email :: rest, i =>
    let call : SendCall :=
      { from_addr := s.API_SMTP_SENDER, to_addrs := all
        msg := mailToSend s email subject message }
    if t.sendOk i then
      let o := sendLoop s t all subject message rest (i + 1)
      { calls := call :: o.calls, logs := LogEntry.info all :: o.logs
        raised := o.raised }
    else
      { calls := [call], logs := [], raised := some SmtpError.sendFailed }

/-- The `try` block of `__notification_send_email` (lines 89-98): connect and
`starttls`, `login`, then the send loop. -/
def sendEmailTry (s : Settings) (t : Transport) (to_emails : List String)
    (subject message : String) : TryOutcome :=
  if !t.connectOk then
    { calls := [], logs := [], raised := some SmtpError.connectFailed }
  else if !t.loginOk then
    { calls := [], logs := [], raised := some SmtpError.authFailed }
  else
    sendLoop s t to_emails subject message to_emails 0

/-- Rendering of the caught exception in the error log line. -/
def smtpErrorString : SmtpError → String
  | SmtpError.connectFailed => "connection failed"
  | SmtpError.authFailed => "authentication failed"
  | SmtpError.sendFailed => "send failed"

/-- `Notifications.__notification_send_email` (lines 74-100): run the `try`
block; the `except Exception` clause (lines 99-100) converts any exception
into an error log line carrying the recipient list, so the method always
returns normally. The result is wrapped in `Except` to make "no exception
escapes" a statement rather than a typing accident: the `.error` branch is
never produced. -/
def notification_send_email (s : Settings) (t : Transport)
    (to_emails : List String) (subject message : String) :
    Except SmtpError (List SendCall × List LogEntry) :=
  let o := sendEmailTry s t to_emails subject message
  match o.raised with
  | none => Except.ok (o.calls, o.logs)
  | some e =>
      Except.ok (o.calls,
        o.logs ++ [LogEntry.error to_emails (smtpErrorString e)])

/-- Actions performed by one run of the background `handler`
(lines 28-43), in program order. -/
inductive HandlerAction where
  | startTimer (delay : Nat)
  | pop (job : NotificationJob)
  | send (call : SendCall)
  | log (entry : LogEntry)
deriving Repr, DecidableEq

/-- The send/log actions contributed by one delivery attempt. Actions are
grouped by kind (all `sendmail` calls, then all log lines), each group in
the order the Python performs them; no claim depends on the interleaving of
a call with its own info line. -/
def deliveryActions (s : Settings) (t : Transport)
    (j : NotificationJob) : List HandlerAction :=
  match notification_send_email s t j.to_emails j.subject j.message with
  | Except.ok (calls, logs) =>
      calls.map HandlerAction.send ++ logs.map HandlerAction.log
  | Except.error _ => []

/-- The `while len(queue) > 0` loop of lines 31-43: pop the head job; if the
host, username and password are all configured, attempt delivery; otherwise
do nothing with the job. Returns the final queue (always reached: the loop
exits only when the queue is empty) and the actions performed. -/
def drainLoop (s : Settings) (t : Transport) :
    List NotificationJob → List NotificationJob × List HandlerAction
  | [] => ([], [])
  | j :: rest =>
    let attempt :=
      if smtpFullyConfigured s then deliveryActions s t j else []
    let r := drainLoop s t rest
    (r.1, HandlerAction.pop j :: attempt ++ r.2)

/-- One run of `handler` (lines 28-43): its FIRST statement (line 29) starts
the 3-second timer for the next run, then the drain loop runs. -/
def handler_body (s : Settings) (t : Transport) (q : List NotificationJob) :
    List NotificationJob × List HandlerAction :=
  let r := drainLoop s t q
  (r.1, HandlerAction.startTimer 3 :: r.2)

/-- A sequence of `add` calls performed one after the other, starting from
queue `q`; each request is (to_emails, subject, message). Returns the final
queue and the concatenated log output. -/
def enqueueAll (s : Settings) (q : List NotificationJob) :
    List (List String × String × String) → List NotificationJob × List LogEntry
  | [] => (q, [])
  | r :: rest =>
    let step := add s q r.1 r.2.1 r.2.2
    let next := enqueueAll s step.1 rest
    (next.1, step.2 ++ next.2)

/-- The job an `add` call with the given request builds (lines 66-72). -/
def mkJob (r : List String × String × String) : NotificationJob :=
  { to_emails := r.1, subject := r.2.1, message := r.2.2 }

/-- The jobs popped by a handler run, in pop order. -/
def popsOf (acts : List HandlerAction) : List NotificationJob :=
  acts.filterMap fun a =>
    match a with
    | HandlerAction.pop j => some j
    | _ => none

/-- The `sendmail` calls a handler run makes, in call order. -/
def sendsOf (acts : List HandlerAction) : List SendCall :=
  acts.filterMap fun a =>
    match a with
    | HandlerAction.send c => some c
    | _ => none

/-- The log lines a handler run emits, in order. -/
def logsOf (acts : List HandlerAction) : List LogEntry :=
  acts.filterMap fun a =>
    match a with
    | HandlerAction.log e => some e
    | _ => none

/-- A transport on which every delivery attempt fails: connection setup
fails, or authentication fails, or every `sendmail` call fails. -/
def failsEveryAttempt (t : Transport) : Prop :=
  t.connectOk = false ∨ t.loginOk = false ∨ ∀ i, t.sendOk i = false

/-! ### Dedup ledger (`notification_sent_record_add` / `_exists`)

The backing row store (`db/models.NotificationsSent` plus the ORM session)
is outside `src/`; it is modelled as a list of rows in insertion order, per
the spec's description of the storage as a row store with insert and
filtered lookup. The filter and existence logic below is transcribed from
`src/utils/notifications.py` lines 206-256. -/

/-- One row of the `NotificationsSent` table, as built at lines 222-226. -/
structure NotificationsSentRecord where
  user_id : String
  uuid : String
  notification_type : String
deriving Repr, DecidableEq

abbrev LedgerStore := List NotificationsSentRecord

abbrev KeyTriple := String × String × String

/-- `Notifications.notification_sent_record_add` (lines 206-228):
`session.add` + `commit` inserts one new row. -/
def notification_sent_record_add (store : LedgerStore)
    (user_id uuid notification_type : String) : LedgerStore :=
  store ++ [{ user_id := user_id, uuid := uuid
              notification_type := notification_type }]

/-- `Notifications.notification_sent_record_exists` (lines 230-256):
`query(...).filter_by(user_id, uuid, notification_type).first()` is
`is not None`. A pure function of the store. -/
def notification_sent_record_exists (store : LedgerStore)
    (user_id uuid notification_type : String) : Bool :=
  (store.find? fun r =>
    r.user_id == user_id && r.uuid == uuid &&
      r.notification_type == notification_type).isSome

/-- The store produced by a sequence of `record` calls starting from an
empty store, each call appending one row (insertion order = call order). -/
def buildStore : List KeyTriple → LedgerStore
  | [] => []
  | k :: rest =>
    notification_sent_record_add [] k.1 k.2.1 k.2.2 ++ buildStore rest

/-- Apply a further sequence of `record` calls to an existing store. -/
def applyCalls (store : LedgerStore) : List KeyTriple → LedgerStore
  | [] => store
  | k :: rest => applyCalls (notification_sent_record_add store k.1 k.2.1 k.2.2) rest

/-! ### Worker health status (`get_status`, `src/routers/healthcheck.py`) -/

/-- One liveness payload as consumed by `get_status`: every field is opaque
to the status computation except `seen`; `stats[-1].get("seen", 0)` reads it
with default `0` when absent (line 95), so it is modelled as optional. -/
structure Payload where
  seen : Option Int
deriving Repr, DecidableEq

/-- The per-worker test of `get_status` lines 93-97: a worker with a
non-empty history counts as online iff `now - last_seen < 120`, where
`last_seen` is the `seen` field of the most recent (last) snapshot, default
`0`; a worker with an empty history does not count. -/
def workerOnline (now : Int) (stats : List Payload) : Bool :=
  match stats.getLast? with
  | none => false
  | some p => now - p.seen.getD 0 < 120

/-- The worker-related fields of the `/status` response. -/
structure WorkersStatus where
  workers : String
  workers_online : Nat
deriving Repr, DecidableEq

/-- The worker part of `get_status` (lines 88-101): count the online
workers; `workers` starts as `"error"` and is set to `"ok"` iff the count is
positive. -/
def get_status_workers (now : Int)
    (worker_data : List (String × List Payload)) : WorkersStatus :=
  let online_count := worker_data.countP fun w => workerOnline now w.2
  { workers_online := online_count
    workers := if online_count > 0 then "ok" else "error" }

/-! ### Message templates and the convenience senders

The message templates live in settings (`NOTIFICATION_MAIL_*["message"]`)
and are configuration data; a template is modelled as a list of literal and
placeholder segments, and Python `str.format(**kwargs)` as substitution
that raises `KeyError` on a placeholder naming an absent keyword. -/

/-- One segment of a message template: literal text or a `{name}`
placeholder. -/
inductive TemplateSeg where
  | lit (text : List Char)
  | hole (name : String)
deriving Repr, DecidableEq

abbrev MessageTemplate := List TemplateSeg

/-- Keyword-argument lookup for `str.format`. -/
def lookupParam (params : List (String × List Char)) (n : String) :
    Option (List Char) :=
  (params.find? fun p => p.1 == n).map Prod.snd

/-- Python `template.format(**params)`: replace each placeholder by its
keyword argument; a placeholder naming an absent keyword raises `KeyError`
(modelled as `Except.error` carrying the name). -/
def formatMap (params : List (String × List Char)) :
    MessageTemplate → Except String (List Char)
  | [] => Except.ok []
  | TemplateSeg.lit t :: rest => (formatMap params rest).map (t ++ ·)
  | TemplateSeg.hole n :: rest =>
    match lookupParam params n with
    | none => Except.error n
    | some v => (formatMap params rest).map (v ++ ·)

/-- `needle` occurs contiguously inside `haystack`. -/
def containsSub (needle haystack : List Char) : Prop :=
  ∃ pre post, haystack = pre ++ needle ++ post

/-- The shared shape of every convenience sender (e.g. lines 301-312,
384-399): Python evaluates `template.format(...)` while building the
argument list of `self.add`, so a `KeyError` propagates to the caller
before `add` runs; otherwise `add` is called with the rendered message. -/
def sendFormatted (s : Settings) (q : List NotificationJob)
    (to_email subject : String) (tmpl : MessageTemplate)
    (params : List (String × List Char)) :
    Except String (List NotificationJob × List LogEntry) :=
  match formatMap params tmpl with
  | Except.error n => Except.error n
  | Except.ok msg => Except.ok (add s q [to_email] subject (String.mk msg))

/-- The keyword arguments `send_quota_alert` passes to `format`
(lines 304-311); numeric values are rendered the way Python interpolates
them. -/
def quotaAlertParams (customer_name : String)
    (usage_percent blocks_purchased minutes_included minutes_consumed
      remaining_minutes : Int) : List (String × List Char) :=
  [("customer_name", customer_name.data),
   ("usage_percent", (toString usage_percent).data),
   ("blocks_purchased", (toString blocks_purchased).data),
   ("minutes_included", (toString minutes_included).data),
   ("minutes_consumed", (toString minutes_consumed).data),
   ("remaining_minutes", (toString remaining_minutes).data)]

/-- `Notifications.send_quota_alert` (lines 275-312), with the configured
template and subject passed explicitly since they are settings data. -/
def send_quota_alert (s : Settings) (tmpl : MessageTemplate)
    (subject : String) (q : List NotificationJob)
    (to_email customer_name : String)
    (usage_percent blocks_purchased minutes_included minutes_consumed
      remaining_minutes : Int) :
    Except String (List NotificationJob × List LogEntry) :=
  sendFormatted s q to_email subject tmpl
    (quotaAlertParams customer_name usage_percent blocks_purchased
      minutes_included minutes_consumed remaining_minutes)

/-- The keyword arguments `send_weekly_usage_report` passes to `format`
(lines 388-398). `blocks_consumed` is a float in the source; only its
rendered text matters here, so it is passed pre-rendered. -/
def weeklyUsageReportParams (customer_name : String)
    (total_users transcribed_files transcribed_minutes
      transcribed_minutes_external blocks_purchased : Int)
    (blocks_consumed : String)
    (minutes_included remaining_minutes overage_minutes : Int) :
    List (String × List Char) :=
  [("customer_name", customer_name.data),
   ("total_users", (toString total_users).data),
   ("transcribed_files", (toString transcribed_files).data),
   ("transcribed_minutes", (toString transcribed_minutes).data),
   ("transcribed_minutes_external", (toString transcribed_minutes_external).data),
   ("blocks_purchased", (toString blocks_purchased).data),
   ("blocks_consumed", blocks_consumed.data),
   ("minutes_included", (toString minutes_included).data),
   ("remaining_minutes", (toString remaining_minutes).data),
   ("overage_minutes", (toString overage_minutes).data)]

/-- `Notifications.send_weekly_usage_report` (lines 350-399). -/
def send_weekly_usage_report (s : Settings) (tmpl : MessageTemplate)
    (subject : String) (q : List NotificationJob)
    (to_email customer_name : String)
    (total_users transcribed_files transcribed_minutes
      transcribed_minutes_external blocks_purchased : Int)
    (blocks_consumed : String)
    (minutes_included remaining_minutes overage_minutes : Int) :
    Except String (List NotificationJob × List LogEntry) :=
  sendFormatted s q to_email subject tmpl
    (weeklyUsageReportParams customer_name total_users transcribed_files
      transcribed_minutes transcribed_minutes_external blocks_purchased
      blocks_consumed minutes_included remaining_minutes overage_minutes)

/-- The `sendmail` calls recorded in a delivery-attempt result. -/
def resultCalls (r : Except SmtpError (List SendCall × List LogEntry)) :
    List SendCall :=
  match r with
  | Except.ok x => x.1
  | Except.error _ => []

/-- The log lines recorded in a delivery-attempt result. -/
def resultLogs (r : Except SmtpError (List SendCall × List LogEntry)) :
    List LogEntry :=
  match r with
  | Except.ok x => x.2
  | Except.error _ => []

/-- The row a `record` call with key triple `k` inserts. -/
def mkRecord (k : KeyTriple) : NotificationsSentRecord :=
  { user_id := k.1, uuid := k.2.1, notification_type := k.2.2 }

/-! ### Concrete fixtures used by witnesses and counterexamples -/

/-- A ledger key triple. -/
def kA : KeyTriple := ("user-1", "job-7", "transcription_finished")

/-- A ledger key triple differing from `kA` in the subject. -/
def kB : KeyTriple := ("user-2", "job-7", "transcription_finished")

/-- Fully configured settings. -/
def sOn : Settings :=
  { API_SMTP_HOST := "smtp.example.org", API_SMTP_PORT := 587
    API_SMTP_USERNAME := "mailer", API_SMTP_PASSWORD := "hunter2"
    API_SMTP_SENDER := "noreply@example.org" }

/-- Settings with no SMTP host (unset / falsy in Python). -/
def sOff : Settings :=
  { API_SMTP_HOST := "", API_SMTP_PORT := 587
    API_SMTP_USERNAME := "mailer", API_SMTP_PASSWORD := "hunter2"
    API_SMTP_SENDER := "noreply@example.org" }

/-- Settings with a host but no password. -/
def sNoPw : Settings :=
  { API_SMTP_HOST := "smtp.example.org", API_SMTP_PORT := 587
    API_SMTP_USERNAME := "mailer", API_SMTP_PASSWORD := ""
    API_SMTP_SENDER := "noreply@example.org" }

/-- A transport on which everything succeeds. -/
def tOk : Transport :=
  { connectOk := true, loginOk := true, sendOk := fun _ => true }

/-- A transport whose connection setup fails. -/
def tConnFail : Transport :=
  { connectOk := false, loginOk := true, sendOk := fun _ => true }

/-- A one-recipient job. -/
def jW : NotificationJob :=
  { to_emails := ["ops@example.org"], subject := "subj", message := "msg" }

/-! ## Helper lemmas -/

theorem hostConfigured_of_full (s : Settings)
    (h : smtpFullyConfigured s = true) : hostConfigured s = true := by
  simp only [smtpFullyConfigured, Bool.and_eq_true, decide_eq_true_eq] at h
  simp only [hostConfigured, decide_eq_true_eq]
  exact h.1.1

theorem enqueueAll_configured (s : Settings) (h : hostConfigured s = true) :
    ∀ (reqs : List (List String × String × String)) (q : List NotificationJob),
      enqueueAll s q reqs = (q ++ reqs.map mkJob, []) := by
  intro reqs
  induction reqs with
  | nil => intro q; simp [enqueueAll]
  | cons r rest ih => intro q; simp [enqueueAll, add, h, ih, mkJob]

theorem drainLoop_cons (s : Settings) (t : Transport) (j : NotificationJob)
    (rest : List NotificationJob) :
    drainLoop s t (j :: rest) =
      ((drainLoop s t rest).1,
        HandlerAction.pop j ::
          ((if smtpFullyConfigured s then deliveryActions s t j else []) ++
            (drainLoop s t rest).2)) := rfl

theorem drainLoop_final_queue (s : Settings) (t : Transport) :
    ∀ q : List NotificationJob, (drainLoop s t q).1 = [] := by
  intro q
  induction q with
  | nil => rfl
  | cons j rest ih => rw [drainLoop_cons]; exact ih

theorem handler_body_acts (s : Settings) (t : Transport)
    (q : List NotificationJob) :
    (handler_body s t q).2 = HandlerAction.startTimer 3 :: (drainLoop s t q).2 :=
  rfl

theorem popsOf_append (xs ys : List HandlerAction) :
    popsOf (xs ++ ys) = popsOf xs ++ popsOf ys := by
  simp [popsOf, List.filterMap_append]

theorem popsOf_map_send (cs : List SendCall) :
    popsOf (cs.map HandlerAction.send) = [] := by
  induction cs with
  | nil => rfl
  | cons c rest ih => simp [popsOf, List.filterMap_cons] at ih ⊢

theorem popsOf_map_log (ls : List LogEntry) :
    popsOf (ls.map HandlerAction.log) = [] := by
  induction ls with
  | nil => rfl
  | cons l rest ih => simp [popsOf, List.filterMap_cons] at ih ⊢

theorem deliveryActions_eq (s : Settings) (t : Transport)
    (j : NotificationJob) :
    deliveryActions s t j =
      (resultCalls (notification_send_email s t j.to_emails j.subject j.message)).map
          HandlerAction.send ++
        (resultLogs (notification_send_email s t j.to_emails j.subject j.message)).map
          HandlerAction.log := by
  unfold deliveryActions resultCalls resultLogs
  cases notification_send_email s t j.to_emails j.subject j.message with
  | ok x => rfl
  | error e => rfl

theorem popsOf_deliveryActions (s : Settings) (t : Transport)
    (j : NotificationJob) :
    popsOf (deliveryActions s t j) = [] := by
  rw [deliveryActions_eq, popsOf_append, popsOf_map_send, popsOf_map_log]
  rfl

theorem popsOf_drainLoop (s : Settings) (t : Transport) :
    ∀ q : List NotificationJob, popsOf (drainLoop s t q).2 = q := by
  intro q
  induction q with
  | nil => rfl
  | cons j rest ih =>
      rw [drainLoop_cons]
      show popsOf (HandlerAction.pop j :: _) = _
      rw [show ∀ xs, popsOf (HandlerAction.pop j :: xs) = j :: popsOf xs from
        fun xs => by simp [popsOf, List.filterMap_cons]]
      rw [popsOf_append]
      cases hc : smtpFullyConfigured s with
      | true => simp [hc, popsOf_deliveryActions, ih]
      | false =>
          rw [if_neg (by simp [hc]), show popsOf [] = [] from rfl,
            List.nil_append, ih]

theorem popsOf_handler (s : Settings) (t : Transport)
    (q : List NotificationJob) :
    popsOf (handler_body s t q).2 = q := by
  rw [handler_body_acts]
  show popsOf (HandlerAction.startTimer 3 :: _) = _
  simp [popsOf, List.filterMap_cons]
  simpa [popsOf] using popsOf_drainLoop s t q

theorem drainLoop_actions (s : Settings) (t : Transport) :
    ∀ q : List NotificationJob,
      (drainLoop s t q).2 =
        (q.map fun j => HandlerAction.pop j ::
          (if smtpFullyConfigured s then deliveryActions s t j else [])).flatten := by
  intro q
  induction q with
  | nil => rfl
  | cons j rest ih => rw [drainLoop_cons]; simp [ih]

theorem sendLoop_all_ok (s : Settings) (t : Transport) (all : List String)
    (subject message : String) (hsend : ∀ i, t.sendOk i = true) :
    ∀ (rest : List String) (i : Nat),
      sendLoop s t all subject message rest i =
        { calls := rest.map fun e =>
            { from_addr := s.API_SMTP_SENDER, to_addrs := all
              msg := mailToSend s e subject message }
          logs := rest.map fun _ => LogEntry.info all
          raised := none } := by
  intro rest
  induction rest with
  | nil => intro i; rfl
  | cons a r ih => intro i; simp [sendLoop, hsend i, ih (i + 1)]

theorem notification_send_email_all_ok (s : Settings) (t : Transport)
    (to_emails : List String) (subject message : String)
    (hc : t.connectOk = true) (hl : t.loginOk = true)
    (hsend : ∀ i, t.sendOk i = true) :
    notification_send_email s t to_emails subject message =
      Except.ok
        (to_emails.map fun e =>
          { from_addr := s.API_SMTP_SENDER, to_addrs := to_emails
            msg := mailToSend s e subject message },
         to_emails.map fun _ => LogEntry.info to_emails) := by
  unfold notification_send_email sendEmailTry
  rw [hc, hl]
  simp [sendLoop_all_ok s t to_emails subject message hsend]

theorem notification_send_email_ok (s : Settings) (t : Transport)
    (to_emails : List String) (subject message : String) :
    ∃ out, notification_send_email s t to_emails subject message =
      Except.ok out := by
  cases h : (sendEmailTry s t to_emails subject message).raised with
  | none =>
      exact ⟨((sendEmailTry s t to_emails subject message).calls,
        (sendEmailTry s t to_emails subject message).logs),
        by simp [notification_send_email, h]⟩
  | some e =>
      exact ⟨((sendEmailTry s t to_emails subject message).calls,
        (sendEmailTry s t to_emails subject message).logs ++
          [LogEntry.error to_emails (smtpErrorString e)]),
        by simp [notification_send_email, h]⟩

theorem failing_attempt_logs_error (s : Settings) (t : Transport)
    (to_emails : List String) (subject message : String)
    (ht : failsEveryAttempt t) (hne : to_emails ≠ []) :
    ∃ e, LogEntry.error to_emails e ∈
      resultLogs (notification_send_email s t to_emails subject message) := by
  unfold notification_send_email sendEmailTry resultLogs
  rcases ht with hcf | hlf | hsf
  · rw [hcf]; exact ⟨smtpErrorString SmtpError.connectFailed, by simp⟩
  · cases hc : t.connectOk with
    | false => exact ⟨smtpErrorString SmtpError.connectFailed, by simp⟩
    | true => rw [hlf]; exact ⟨smtpErrorString SmtpError.authFailed, by simp⟩
  · cases hc : t.connectOk with
    | false => exact ⟨smtpErrorString SmtpError.connectFailed, by simp⟩
    | true =>
        cases hl : t.loginOk with
        | false => exact ⟨smtpErrorString SmtpError.authFailed, by simp⟩
        | true =>
            cases to_emails with
            | nil => exact absurd rfl hne
            | cons a r =>
                exact ⟨smtpErrorString SmtpError.sendFailed,
                  by simp [sendLoop, hsf 0]⟩

theorem flatten_map_singleton {α β : Type} (f : α → β) :
    ∀ l : List α, (l.map fun a => [f a]).flatten = l.map f := by
  intro l
  induction l with
  | nil => rfl
  | cons a r ih => simp [ih]

theorem smtpFullyConfigured_false (s : Settings)
    (hcred : s.API_SMTP_USERNAME = "" ∨ s.API_SMTP_PASSWORD = "") :
    smtpFullyConfigured s = false := by
  rcases hcred with h | h <;> simp [smtpFullyConfigured, h]

theorem sendsOf_timer_pops (q : List NotificationJob) :
    sendsOf (HandlerAction.startTimer 3 :: q.map HandlerAction.pop) = [] := by
  induction q with
  | nil => rfl
  | cons j r ih => simp [sendsOf, List.filterMap_cons] at ih ⊢

theorem logsOf_timer_pops (q : List NotificationJob) :
    logsOf (HandlerAction.startTimer 3 :: q.map HandlerAction.pop) = [] := by
  induction q with
  | nil => rfl
  | cons j r ih => simp [logsOf, List.filterMap_cons] at ih ⊢

theorem startTimer_not_in_deliveryActions (s : Settings) (t : Transport)
    (j : NotificationJob) (d : Nat) :
    HandlerAction.startTimer d ∉ deliveryActions s t j := by
  rw [deliveryActions_eq]
  simp

/-! ## Claim theorems -/

/-- C5: `add` with the SMTP host unconfigured logs the warning and leaves
the pending buffer unchanged (and, being a total function, returns without
raising); with the host configured it appends exactly one job at the tail
of the buffer. -/
theorem add_policy (s : Settings) (q : List NotificationJob)
    (to_emails : List String) (subject message : String) :
    (hostConfigured s = false →
      add s q to_emails subject message =
        (q, [LogEntry.warning
          "SMTP host is not configured. Email notifications will not be sent."]))
    ∧ (hostConfigured s = true →
      add s q to_emails subject message =
        (q ++ [{ to_emails := to_emails, subject := subject
                 message := message }], [])) := by
  constructor
  · intro h; simp [add, h]
  · intro h; simp [add, h]

/-- Witness for C5 at concrete inputs: unconfigured settings drop the job
with a warning; configured settings append it. -/
theorem add_policy_witness :
    add sOff [] ["a@example.org"] "s" "m" =
      ([], [LogEntry.warning
        "SMTP host is not configured. Email notifications will not be sent."])
    ∧ add sOn [] ["a@example.org"] "s" "m" =
      ([{ to_emails := ["a@example.org"], subject := "s", message := "m" }],
        []) :=
  ⟨(add_policy sOff [] ["a@example.org"] "s" "m").1 (by decide),
   (add_policy sOn [] ["a@example.org"] "s" "m").2 (by decide)⟩

/-- C10: with the SMTP host configured but the username or password unset,
`add` enqueues with no warning, and a drain cycle pops every buffered job
while making no transport call and writing no log line: the jobs are
silently discarded. -/
theorem host_only_configured_silent_drop (s : Settings) (t : Transport)
    (q : List NotificationJob) (to_emails : List String)
    (subject message : String)
    (hhost : s.API_SMTP_HOST ≠ "")
    (hcred : s.API_SMTP_USERNAME = "" ∨ s.API_SMTP_PASSWORD = "") :
    add s q to_emails subject message =
      (q ++ [{ to_emails := to_emails, subject := subject
               message := message }], [])
    ∧ (handler_body s t q).1 = []
    ∧ (handler_body s t q).2 =
        HandlerAction.startTimer 3 :: q.map HandlerAction.pop
    ∧ sendsOf (handler_body s t q).2 = []
    ∧ logsOf (handler_body s t q).2 = [] := by
  have hnc : smtpFullyConfigured s = false := smtpFullyConfigured_false s hcred
  have hacts : (handler_body s t q).2 =
      HandlerAction.startTimer 3 :: q.map HandlerAction.pop := by
    rw [handler_body_acts, drainLoop_actions]
    simp [hnc, flatten_map_singleton]
  refine ⟨?_, ?_, hacts, ?_, ?_⟩
  · simp [add, hostConfigured, hhost]
  · exact drainLoop_final_queue s t q
  · rw [hacts]; exact sendsOf_timer_pops q
  · rw [hacts]; exact logsOf_timer_pops q

/-- Witness for C10 at concrete inputs: host set, password empty; the job
is accepted without warning and the drain pops it with no send and no log. -/
theorem host_only_configured_silent_drop_witness :
    add sNoPw [] ["ops@example.org"] "subj" "msg" = ([jW], [])
    ∧ (handler_body sNoPw tOk [jW]).2 =
        [HandlerAction.startTimer 3, HandlerAction.pop jW] :=
  ⟨(host_only_configured_silent_drop sNoPw tOk [] ["ops@example.org"]
      "subj" "msg" (by decide) (Or.inr rfl)).1,
   (host_only_configured_silent_drop sNoPw tOk [jW] ["ops@example.org"]
      "subj" "msg" (by decide) (Or.inr rfl)).2.2.1⟩

/-- C3 as stated is FALSE on the code: the handler's first statement
(line 29) starts the next cycle's timer, so the timer-arm action is not
performed after the drain completes. At a concrete one-job queue the
action trace is not `drain actions ++ [startTimer]`. -/
theorem timer_rearm_after_drain_refuted :
    ¬ ((handler_body sOn tOk [jW]).2 =
        (drainLoop sOn tOk [jW]).2 ++ [HandlerAction.startTimer 3]) := by
  decide

/-- C3 amended: the handler re-arms its 3-time-unit timer at the START of
each cycle, before any job is popped; no timer arming happens anywhere in
the drain itself, so the period runs start-to-start and a slow delivery
attempt does not delay the arming of the next cycle's timer. -/
theorem timer_rearm_at_cycle_start (s : Settings) (t : Transport)
    (q : List NotificationJob) :
    (handler_body s t q).2.head? = some (HandlerAction.startTimer 3)
    ∧ ∀ d, HandlerAction.startTimer d ∉ (drainLoop s t q).2 := by
  constructor
  · rw [handler_body_acts]; rfl
  · intro d
    induction q with
    | nil => simp [drainLoop]
    | cons j rest ih =>
        rw [drainLoop_cons]
        simp only [List.mem_cons, List.mem_append]
        rintro (h | h | h)
        · cases h
        · cases hc : smtpFullyConfigured s with
          | false => rw [if_neg (by simp [hc])] at h; cases h
          | true =>
              rw [if_pos hc] at h
              exact startTimer_not_in_deliveryActions s t j d h
        · exact ih h

/-- C7: with the transport configured, jobs enqueued by successive `add`
calls sit in the buffer in arrival order, the drain pops them in exactly
that order, and the action trace is the per-job blocks (pop, then that
job's delivery actions) concatenated in arrival order — strict FIFO, no
reordering. -/
theorem fifo_order (s : Settings) (t : Transport)
    (reqs : List (List String × String × String))
    (hs : smtpFullyConfigured s = true) :
    (enqueueAll s [] reqs).1 = reqs.map mkJob
    ∧ popsOf (handler_body s t (reqs.map mkJob)).2 = reqs.map mkJob
    ∧ (drainLoop s t (reqs.map mkJob)).2 =
        ((reqs.map mkJob).map fun j =>
          HandlerAction.pop j :: deliveryActions s t j).flatten := by
  refine ⟨?_, popsOf_handler s t (reqs.map mkJob), ?_⟩
  · rw [enqueueAll_configured s (hostConfigured_of_full s hs)]
    simp
  · rw [drainLoop_actions]
    simp [hs]

/-- Witness for C7: two concrete enqueues land in arrival order and are
popped in that order. -/
theorem fifo_order_witness :
    (enqueueAll sOn []
      [(["a@example.org"], "s1", "m1"), (["b@example.org"], "s2", "m2")]).1 =
      [{ to_emails := ["a@example.org"], subject := "s1", message := "m1" },
       { to_emails := ["b@example.org"], subject := "s2", message := "m2" }]
    ∧ popsOf (handler_body sOn tOk
        [{ to_emails := ["a@example.org"], subject := "s1", message := "m1" },
         { to_emails := ["b@example.org"], subject := "s2", message := "m2" }]).2 =
      [{ to_emails := ["a@example.org"], subject := "s1", message := "m1" },
       { to_emails := ["b@example.org"], subject := "s2", message := "m2" }] :=
  ⟨(fifo_order sOn tOk
      [(["a@example.org"], "s1", "m1"), (["b@example.org"], "s2", "m2")]
      (by decide)).1,
   (fifo_order sOn tOk
      [(["a@example.org"], "s1", "m1"), (["b@example.org"], "s2", "m2")]
      (by decide)).2.1⟩

/-- C1: enqueue any sequence of jobs (non-empty recipient lists) with the
transport configured, then run one drain cycle on a transport on which
every delivery attempt fails: the buffer is empty afterwards, every job was
popped exactly once in order, each failure was caught and logged with the
job's recipient list, and every delivery attempt returned normally (the
`except` clause converts the exception into a log line), so nothing escapes
the drain loop and nothing is requeued. -/
theorem drain_failing_transport (s : Settings) (t : Transport)
    (reqs : List (List String × String × String))
    (hs : smtpFullyConfigured s = true) (ht : failsEveryAttempt t)
    (hne : ∀ r ∈ reqs, r.1 ≠ []) :
    (enqueueAll s [] reqs).1 = reqs.map mkJob
    ∧ (handler_body s t (reqs.map mkJob)).1 = []
    ∧ popsOf (handler_body s t (reqs.map mkJob)).2 = reqs.map mkJob
    ∧ (∀ j ∈ reqs.map mkJob, ∃ e,
        HandlerAction.log (LogEntry.error j.to_emails e) ∈
          (handler_body s t (reqs.map mkJob)).2)
    ∧ ∀ j ∈ reqs.map mkJob, ∃ out,
        notification_send_email s t j.to_emails j.subject j.message =
          Except.ok out := by
  have henq : (enqueueAll s [] reqs).1 = reqs.map mkJob := by
    rw [enqueueAll_configured s (hostConfigured_of_full s hs)]; simp
  have hacts : (drainLoop s t (reqs.map mkJob)).2 =
      ((reqs.map mkJob).map fun j =>
        HandlerAction.pop j :: deliveryActions s t j).flatten := by
    rw [drainLoop_actions]; simp [hs]
  refine ⟨henq, drainLoop_final_queue s t _, popsOf_handler s t _, ?_, ?_⟩
  · intro j hj
    have hjne : j.to_emails ≠ [] := by
      obtain ⟨r, hr, rfl⟩ := List.mem_map.mp hj
      exact hne r hr
    obtain ⟨e, he⟩ :=
      failing_attempt_logs_error s t j.to_emails j.subject j.message ht hjne
    refine ⟨e, ?_⟩
    rw [handler_body_acts]
    refine List.mem_cons_of_mem _ ?_
    rw [hacts]
    refine List.mem_flatten.mpr
      ⟨HandlerAction.pop j :: deliveryActions s t j, List.mem_map_of_mem _ hj, ?_⟩
    refine List.mem_cons_of_mem _ ?_
    rw [deliveryActions_eq]
    exact List.mem_append_right _ (List.mem_map_of_mem _ he)
  · intro j _
    exact notification_send_email_ok s t j.to_emails j.subject j.message

/-- Witness for C1: one job, connection-refusing transport; the buffer is
drained and the failure is logged with the recipient list. -/
theorem drain_failing_transport_witness :
    (handler_body sOn tConnFail [jW]).1 = []
    ∧ ∃ e, HandlerAction.log (LogEntry.error ["ops@example.org"] e) ∈
        (handler_body sOn tConnFail [jW]).2 :=
  ⟨(drain_failing_transport sOn tConnFail [(["ops@example.org"], "subj", "msg")]
      (by decide) (Or.inl rfl) (by decide)).2.1,
   (drain_failing_transport sOn tConnFail [(["ops@example.org"], "subj", "msg")]
      (by decide) (Or.inl rfl) (by decide)).2.2.2.1 jW (by decide)⟩

/-- C2 as stated is FALSE on the code: for a job with the two recipients
`a@example.org` and `b@example.org`, a fully successful delivery attempt
makes TWO `sendmail` calls (the loop at lines 95-98 iterates once per
recipient and passes the full recipient list to each call), not one. -/
theorem single_send_call_refuted :
    (resultCalls (notification_send_email sOn tOk
        ["a@example.org", "b@example.org"] "s" "m")).length = 2
    ∧ ¬ (resultCalls (notification_send_email sOn tOk
        ["a@example.org", "b@example.org"] "s" "m")).length = 1 := by
  decide

/-- C2 amended: a successful delivery attempt for a job with N recipients
makes exactly N transport send calls — one per recipient, from the loop at
lines 95-98 — and every one of those calls is addressed to all N
recipients (so each recipient is sent N copies). -/
theorem successful_delivery_call_per_recipient (s : Settings) (t : Transport)
    (to_emails : List String) (subject message : String)
    (hc : t.connectOk = true) (hl : t.loginOk = true)
    (hsend : ∀ i, t.sendOk i = true) :
    (resultCalls (notification_send_email s t to_emails subject message)).length =
      to_emails.length
    ∧ ∀ c ∈ resultCalls (notification_send_email s t to_emails subject message),
        c.to_addrs = to_emails ∧ c.from_addr = s.API_SMTP_SENDER := by
  rw [notification_send_email_all_ok s t to_emails subject message hc hl hsend]
  constructor
  · simp [resultCalls]
  · intro c hcm
    simp only [resultCalls, List.mem_map] at hcm
    obtain ⟨e, _, rfl⟩ := hcm
    exact ⟨rfl, rfl⟩

/-- Witness for C2's amended statement: one recipient, one call. -/
theorem successful_delivery_call_per_recipient_witness :
    (resultCalls (notification_send_email sOn tOk
      ["a@example.org"] "s" "m")).length = 1 :=
  (successful_delivery_call_per_recipient sOn tOk ["a@example.org"] "s" "m"
    rfl rfl (fun _ => rfl)).1

/-! ## Ledger lemmas and claims -/

theorem buildStore_eq_map : ∀ calls : List KeyTriple,
    buildStore calls = calls.map mkRecord := by
  intro calls
  induction calls with
  | nil => rfl
  | cons k rest ih => simp [buildStore, notification_sent_record_add, mkRecord, ih]

theorem record_exists_iff (store : LedgerStore) (u i k : String) :
    notification_sent_record_exists store u i k = true ↔
      ∃ r ∈ store, r.user_id = u ∧ r.uuid = i ∧ r.notification_type = k := by
  simp [notification_sent_record_exists, List.find?_isSome, and_assoc]

theorem record_exists_append (a b : LedgerStore) (u i k : String) :
    notification_sent_record_exists (a ++ b) u i k =
      (notification_sent_record_exists a u i k ||
        notification_sent_record_exists b u i k) := by
  rw [Bool.eq_iff_iff]
  simp [record_exists_iff, List.mem_append, or_and_right, exists_or]

theorem applyCalls_eq : ∀ (more : List KeyTriple) (store : LedgerStore),
    applyCalls store more = store ++ buildStore more := by
  intro more
  induction more with
  | nil => intro store; simp [applyCalls, buildStore]
  | cons k rest ih =>
      intro store
      simp [applyCalls, buildStore, ih, notification_sent_record_add]

/-- C6: against the row store built by any sequence of `record` calls, the
`exists` query is a pure function of the store that answers true iff a row
matching the key triple is present; it answers false when no `record` call
with that triple has happened, and true after one has. -/
theorem ledger_exists_semantics (calls : List KeyTriple) (k : KeyTriple) :
    (notification_sent_record_exists (buildStore calls) k.1 k.2.1 k.2.2 = true ↔
      ∃ r ∈ buildStore calls,
        r.user_id = k.1 ∧ r.uuid = k.2.1 ∧ r.notification_type = k.2.2)
    ∧ (k ∉ calls →
        notification_sent_record_exists (buildStore calls) k.1 k.2.1 k.2.2 = false)
    ∧ (k ∈ calls →
        notification_sent_record_exists (buildStore calls) k.1 k.2.1 k.2.2 = true) := by
  refine ⟨record_exists_iff _ _ _ _, ?_, ?_⟩
  · intro hnot
    rw [Bool.eq_false_iff]
    intro htrue
    obtain ⟨r, hr, h1, h2, h3⟩ := (record_exists_iff _ _ _ _).mp htrue
    rw [buildStore_eq_map] at hr
    obtain ⟨k2, hk2, rfl⟩ := List.mem_map.mp hr
    apply hnot
    have : k2 = k := by
      obtain ⟨a, b, c⟩ := k2
      obtain ⟨x, y, z⟩ := k
      simp only [mkRecord] at h1 h2 h3
      simp_all
    rwa [this] at hk2
  · intro hk
    refine (record_exists_iff _ _ _ _).mpr ⟨mkRecord k, ?_, rfl, rfl, rfl⟩
    rw [buildStore_eq_map]
    exact List.mem_map_of_mem _ hk

/-- Witness for C6: with only `kA` recorded, the query for `kB` answers
false and the query for `kA` answers true. -/
theorem ledger_exists_semantics_witness :
    notification_sent_record_exists (buildStore [kA]) kB.1 kB.2.1 kB.2.2 = false
    ∧ notification_sent_record_exists (buildStore [kA]) kA.1 kA.2.1 kA.2.2 = true :=
  ⟨(ledger_exists_semantics [kA] kB).2.1 (by decide),
   (ledger_exists_semantics [kA] kA).2.2 (by decide)⟩

/-- C8: recording the same key triple twice leaves every subsequent
`exists` query — even after arbitrary further `record` calls — with the
same answer as recording it once: the ledger is idempotent for readers
although the storage keeps the duplicate row. -/
theorem ledger_record_idempotent (store : LedgerStore) (k : KeyTriple)
    (more : List KeyTriple) (q : KeyTriple) :
    notification_sent_record_exists
      (applyCalls
        (notification_sent_record_add
          (notification_sent_record_add store k.1 k.2.1 k.2.2) k.1 k.2.1 k.2.2)
        more) q.1 q.2.1 q.2.2
    = notification_sent_record_exists
        (applyCalls (notification_sent_record_add store k.1 k.2.1 k.2.2) more)
        q.1 q.2.1 q.2.2 := by
  rw [applyCalls_eq, applyCalls_eq]
  simp only [notification_sent_record_add, List.append_assoc,
    record_exists_append]
  cases notification_sent_record_exists store q.1 q.2.1 q.2.2 <;>
    cases notification_sent_record_exists
      [{ user_id := k.1, uuid := k.2.1, notification_type := k.2.2 }]
      q.1 q.2.1 q.2.2 <;>
    cases notification_sent_record_exists (buildStore more) q.1 q.2.1 q.2.2 <;>
    simp

/-! ## Health-status claim -/

/-- C4: a worker with at least one snapshot is reported online iff its most
recent snapshot's `seen` lies within the 120-time-unit window of the query
time (`now - seen < 120`): online at `seen = now - 119`, offline at
`seen = now - 121`; the fleet `workers` field is `"ok"` iff at least one
worker is online and `"error"` otherwise. -/
theorem worker_status_window (now : Int) (stats : List Payload) (p : Payload)
    (hp : stats.getLast? = some p) (data : List (String × List Payload)) :
    (workerOnline now stats = true ↔ now - p.seen.getD 0 < 120)
    ∧ workerOnline now [{ seen := some (now - 119) }] = true
    ∧ workerOnline now [{ seen := some (now - 121) }] = false
    ∧ ((get_status_workers now data).workers = "ok" ↔
        ∃ w ∈ data, workerOnline now w.2 = true)
    ∧ ((get_status_workers now data).workers = "ok" ∨
        (get_status_workers now data).workers = "error") := by
  refine ⟨?_, ?_, ?_, ?_, ?_⟩
  · simp [workerOnline, hp]
  · simp [workerOnline]
  · simp [workerOnline]
  · unfold get_status_workers
    by_cases hcp : 0 < data.countP fun w => workerOnline now w.2
    · simpa [hcp] using List.countP_pos_iff.mp hcp
    · simp only [hcp, if_neg, gt_iff_lt, if_false]
      constructor
      · intro h; exact absurd h (by decide)
      · intro h
        exact absurd (List.countP_pos_iff.mpr h) hcp
  · unfold get_status_workers
    by_cases hcp : 0 < data.countP fun w => workerOnline now w.2
    · left; simp [hcp]
    · right; simp [hcp]

/-- Witness for C4: one snapshot seen 119 time units ago is online. -/
theorem worker_status_window_witness :
    workerOnline 219 [{ seen := some 100 }] = true :=
  ((worker_status_window 219 [{ seen := some 100 }] { seen := some 100 }
    rfl []).1).mpr (by decide)

/-! ## Template-substitution lemmas and claim -/

theorem formatMap_missing (params : List (String × List Char)) :
    ∀ tmpl : MessageTemplate,
      (∃ n, TemplateSeg.hole n ∈ tmpl ∧ lookupParam params n = none) →
      ∃ n, formatMap params tmpl = Except.error n := by
  intro tmpl
  induction tmpl with
  | nil => rintro ⟨n, hn, _⟩; cases hn
  | cons seg rest ih =>
      rintro ⟨n, hn, hmiss⟩
      cases seg with
      | lit t =>
          have hr : TemplateSeg.hole n ∈ rest := by
            rcases List.mem_cons.mp hn with h | h
            · cases h
            · exact h
          obtain ⟨m, hm⟩ := ih ⟨n, hr, hmiss⟩
          exact ⟨m, by simp [formatMap, hm, Except.map]⟩
      | hole m =>
          cases hl : lookupParam params m with
          | none => exact ⟨m, by simp [formatMap, hl]⟩
          | some v =>
              have hr : TemplateSeg.hole n ∈ rest := by
                rcases List.mem_cons.mp hn with h | h
                · cases h
                  rw [hl] at hmiss
                  cases hmiss
                · exact h
              obtain ⟨m2, hm2⟩ := ih ⟨n, hr, hmiss⟩
              exact ⟨m2, by simp [formatMap, hl, hm2, Except.map]⟩

theorem formatMap_total (params : List (String × List Char)) :
    ∀ tmpl : MessageTemplate,
      (∀ n, TemplateSeg.hole n ∈ tmpl → (lookupParam params n).isSome = true) →
      ∃ cs, formatMap params tmpl = Except.ok cs := by
  intro tmpl
  induction tmpl with
  | nil => intro _; exact ⟨[], rfl⟩
  | cons seg rest ih =>
      intro hall
      cases seg with
      | lit t =>
          obtain ⟨cs, hcs⟩ := ih fun n hn => hall n (List.mem_cons_of_mem _ hn)
          exact ⟨t ++ cs, by simp [formatMap, hcs, Except.map]⟩
      | hole m =>
          have hm := hall m (List.mem_cons_self _ _)
          cases hl : lookupParam params m with
          | none => rw [hl] at hm; cases hm
          | some v =>
              obtain ⟨cs, hcs⟩ := ih fun n hn => hall n (List.mem_cons_of_mem _ hn)
              exact ⟨v ++ cs, by simp [formatMap, hl, hcs, Except.map]⟩

theorem formatMap_contains (params : List (String × List Char)) :
    ∀ (tmpl : MessageTemplate) (cs : List Char),
      formatMap params tmpl = Except.ok cs →
      ∀ n v, TemplateSeg.hole n ∈ tmpl → lookupParam params n = some v →
        containsSub v cs := by
  intro tmpl
  induction tmpl with
  | nil => intro cs _ n v hn _; cases hn
  | cons seg rest ih =>
      intro cs hok n v hn hv
      cases seg with
      | lit t =>
          cases hr : formatMap params rest with
          | error m => rw [show formatMap params (TemplateSeg.lit t :: rest) =
              (formatMap params rest).map (t ++ ·) from rfl, hr] at hok; cases hok
          | ok cs2 =>
              rw [show formatMap params (TemplateSeg.lit t :: rest) =
                (formatMap params rest).map (t ++ ·) from rfl, hr] at hok
              obtain rfl : t ++ cs2 = cs := by
                simpa [Except.map] using hok
              have hnr : TemplateSeg.hole n ∈ rest := by
                rcases List.mem_cons.mp hn with h | h
                · cases h
                · exact h
              obtain ⟨pre, post, hsplit⟩ := ih cs2 hr n v hnr hv
              exact ⟨t ++ pre, post, by simp [hsplit, List.append_assoc]⟩
      | hole m =>
          cases hl : lookupParam params m with
          | none =>
              rw [show formatMap params (TemplateSeg.hole m :: rest) =
                (match lookupParam params m with
                  | none => Except.error m
                  | some w => (formatMap params rest).map (w ++ ·)) from rfl,
                hl] at hok
              cases hok
          | some w =>
              rw [show formatMap params (TemplateSeg.hole m :: rest) =
                (match lookupParam params m with
                  | none => Except.error m
                  | some w => (formatMap params rest).map (w ++ ·)) from rfl,
                hl] at hok
              cases hr : formatMap params rest with
              | error m2 => rw [hr] at hok; cases hok
              | ok cs2 =>
                  rw [hr] at hok
                  obtain rfl : w ++ cs2 = cs := by
                    simpa [Except.map] using hok
                  rcases List.mem_cons.mp hn with h | hnr
                  · obtain rfl : n = m := by cases h; rfl
                    rw [hl] at hv
                    obtain rfl : w = v := by cases hv; rfl
                    exact ⟨[], cs2, by simp⟩
                  · obtain ⟨pre, post, hsplit⟩ := ih cs2 hr n v hnr hv
                    exact ⟨w ++ pre, post, by simp [hsplit, List.append_assoc]⟩

theorem sendFormatted_spec (s : Settings) (q : List NotificationJob)
    (to_email subject : String) (tmpl : MessageTemplate)
    (params : List (String × List Char)) :
    ((∃ n, TemplateSeg.hole n ∈ tmpl ∧ lookupParam params n = none) →
      ∃ n, sendFormatted s q to_email subject tmpl params = Except.error n)
    ∧ ((∀ n, TemplateSeg.hole n ∈ tmpl → (lookupParam params n).isSome = true) →
      ∃ cs, formatMap params tmpl = Except.ok cs ∧
        sendFormatted s q to_email subject tmpl params =
          Except.ok (add s q [to_email] subject (String.mk cs)) ∧
        ∀ n v, TemplateSeg.hole n ∈ tmpl → lookupParam params n = some v →
          containsSub v cs) := by
  constructor
  · intro hmiss
    obtain ⟨n, hn⟩ := formatMap_missing params tmpl hmiss
    exact ⟨n, by simp [sendFormatted, hn]⟩
  · intro hall
    obtain ⟨cs, hcs⟩ := formatMap_total params tmpl hall
    exact ⟨cs, hcs, by simp [sendFormatted, hcs],
      fun n v hn hv => formatMap_contains params tmpl cs hcs n v hn hv⟩

/-- C9: for both convenience senders cited by the claim
(`send_quota_alert`, `send_weekly_usage_report`): if the configured message
template references a placeholder that is not among the parameters the
sender supplies, the call raises the error to the caller before anything is
enqueued; if every placeholder is supplied, the call enqueues via `add` a
message in which every substituted value occurs. -/
theorem template_mismatch_policy (s : Settings) (q : List NotificationJob)
    (tmpl : MessageTemplate) (subject to_email customer_name : String)
    (usage_percent blocks_purchased minutes_included minutes_consumed
      remaining_minutes total_users transcribed_files transcribed_minutes
      transcribed_minutes_external : Int) (blocks_consumed : String)
    (overage_minutes : Int) :
    ((∃ n, TemplateSeg.hole n ∈ tmpl ∧
        lookupParam (quotaAlertParams customer_name usage_percent
          blocks_purchased minutes_included minutes_consumed
          remaining_minutes) n = none) →
      ∃ n, send_quota_alert s tmpl subject q to_email customer_name
        usage_percent blocks_purchased minutes_included minutes_consumed
        remaining_minutes = Except.error n)
    ∧ ((∀ n, TemplateSeg.hole n ∈ tmpl →
        (lookupParam (quotaAlertParams customer_name usage_percent
          blocks_purchased minutes_included minutes_consumed
          remaining_minutes) n).isSome = true) →
      ∃ cs, formatMap (quotaAlertParams customer_name usage_percent
          blocks_purchased minutes_included minutes_consumed
          remaining_minutes) tmpl = Except.ok cs ∧
        send_quota_alert s tmpl subject q to_email customer_name
          usage_percent blocks_purchased minutes_included minutes_consumed
          remaining_minutes =
          Except.ok (add s q [to_email] subject (String.mk cs)) ∧
        ∀ n v, TemplateSeg.hole n ∈ tmpl →
          lookupParam (quotaAlertParams customer_name usage_percent
            blocks_purchased minutes_included minutes_consumed
            remaining_minutes) n = some v → containsSub v cs)
    ∧ ((∃ n, TemplateSeg.hole n ∈ tmpl ∧
        lookupParam (weeklyUsageReportParams customer_name total_users
          transcribed_files transcribed_minutes transcribed_minutes_external
          blocks_purchased blocks_consumed minutes_included remaining_minutes
          overage_minutes) n = none) →
      ∃ n, send_weekly_usage_report s tmpl subject q to_email customer_name
        total_users transcribed_files transcribed_minutes
        transcribed_minutes_external blocks_purchased blocks_consumed
        minutes_included remaining_minutes overage_minutes = Except.error n)
    ∧ ((∀ n, TemplateSeg.hole n ∈ tmpl →
        (lookupParam (weeklyUsageReportParams customer_name total_users
          transcribed_files transcribed_minutes transcribed_minutes_external
          blocks_purchased blocks_consumed minutes_included remaining_minutes
          overage_minutes) n).isSome = true) →
      ∃ cs, formatMap (weeklyUsageReportParams customer_name total_users
          transcribed_files transcribed_minutes transcribed_minutes_external
          blocks_purchased blocks_consumed minutes_included remaining_minutes
          overage_minutes) tmpl = Except.ok cs ∧
        send_weekly_usage_report s tmpl subject q to_email customer_name
          total_users transcribed_files transcribed_minutes
          transcribed_minutes_external blocks_purchased blocks_consumed
          minutes_included remaining_minutes overage_minutes =
          Except.ok (add s q [to_email] subject (String.mk cs)) ∧
        ∀ n v, TemplateSeg.hole n ∈ tmpl →
          lookupParam (weeklyUsageReportParams customer_name total_users
            transcribed_files transcribed_minutes transcribed_minutes_external
            blocks_purchased blocks_consumed minutes_included remaining_minutes
            overage_minutes) n = some v → containsSub v cs) :=
  ⟨(sendFormatted_spec s q to_email subject tmpl _).1,
   (sendFormatted_spec s q to_email subject tmpl _).2,
   (sendFormatted_spec s q to_email subject tmpl _).1,
   (sendFormatted_spec s q to_email subject tmpl _).2⟩

/-- Witness for C9: a template referencing an unknown placeholder makes
`send_quota_alert` raise before enqueueing. -/
theorem template_mismatch_policy_witness :
    ∃ n, send_quota_alert sOn [TemplateSeg.hole "nonexistent_param"] "Subj"
      [] "admin@example.org" "ACME" 96 10 40000 38400 1600 =
        Except.error n :=
  (template_mismatch_policy sOn [] [TemplateSeg.hole "nonexistent_param"]
    "Subj" "admin@example.org" "ACME" 96 10 40000 38400 1600 0 0 0 0 "" 0).1
    ⟨"nonexistent_param", List.mem_cons_self _ _, by decide⟩

end Scribe
